import Mathlib

/-!
A shallow embedding of the analytics aggregation engine of the
`dashboard-cx` repository (files `analytics.py` and `data_processor.py`),
together with theorems settling the specification claims about it.

Modelling conventions:
* Tabular data (pandas DataFrames) become `List`s of records; nullable
  cells (NaN / NaT) become `Option` fields.
* Float arithmetic is modelled over `ℚ`.  Every concrete value appearing
  in the claims (half-integer ratings, durations in whole seconds,
  two-decimal roundings) is exactly representable in binary floating
  point, so the rational model agrees with the float computation on all
  inputs the theorems touch.
* IEEE special values matter only where a division's denominator can be
  zero, so division results live in `PFloat`, which adjoins `+∞`, `-∞`
  and `NaN` to `ℚ` and divides with IEEE semantics (numpy emits `inf` or
  `nan` on float division by zero instead of raising).
* `groupby` becomes "distinct keys + per-key filtered aggregation"; the
  pandas behaviour of dropping null keys is preserved via `filterMap`.
-/

attribute [local semireducible] Rat.mul Rat.add Rat.sub Rat.inv

/-- IEEE-style float value: a finite rational, an infinity, or NaN. -/
inductive PFloat where
  | finite (q : ℚ)
  | pinf
  | ninf
  | nan
deriving DecidableEq, Repr

namespace PFloat

/-- Float division as numpy performs it on float64 operands: a zero
denominator yields a signed infinity (or NaN for 0/0) rather than an
error.  All denominators in the embedded code are nonnegative, so the
zero denominator is treated as +0. -/
def div : PFloat → PFloat → PFloat
  | finite a, finite b =>
      if b = 0 then (if a = 0 then nan else if 0 < a then pinf else ninf)
      else finite (a / b)
  | finite _, pinf => finite 0
  | finite _, ninf => finite 0
  | pinf, finite b => if b < 0 then ninf else pinf
  | ninf, finite b => if b < 0 then pinf else ninf
  | pinf, pinf => nan
  | pinf, ninf => nan
  | ninf, pinf => nan
  | ninf, ninf => nan
  | nan, _ => nan
  | _, nan => nan

end PFloat

/-- Round to the nearest integer, ties to even — the rounding used by
Python's `round` and numpy's `np.round`. -/
def roundHalfEven (q : ℚ) : ℤ :=
  if q - ⌊q⌋ < 1/2 then ⌊q⌋
  else if 1/2 < q - ⌊q⌋ then ⌊q⌋ + 1
  else if ⌊q⌋ % 2 = 0 then ⌊q⌋ else ⌊q⌋ + 1

/-- Round to two decimal places (pandas `.round(2)`). -/
def round2 (q : ℚ) : ℚ := (roundHalfEven (q * 100) : ℚ) / 100

/-- `.round(2)` lifted to `PFloat`: infinities and NaN round to themselves. -/
def round2P : PFloat → PFloat
  | .finite q => .finite (round2 q)
  | x => x

/-- Mean of a column of non-null values; the mean of an empty column is
NaN (pandas `Series.mean` over no data). -/
def pmean (l : List ℚ) : PFloat :=
  if l.isEmpty then .nan else .finite (l.sum / l.length)

/-- Sum of a column of non-null values (pandas `sum` skips NaN and
returns 0.0 on no data). -/
def psum (l : List ℚ) : ℚ := l.sum

/-- Median of an already-sorted column: middle element, or the average
of the two middle elements for even length; NaN on no data. -/
def medianSorted (s : List ℚ) : PFloat :=
  if s.length = 0 then .nan
  else if s.length % 2 = 1 then .finite (s.getD (s.length / 2) 0)
  else .finite ((s.getD (s.length / 2 - 1) 0 + s.getD (s.length / 2) 0) / 2)

/-- Median of a column of non-null values (pandas `Series.median`). -/
def pmedian (l : List ℚ) : PFloat :=
  medianSorted (l.insertionSort (· ≤ ·))

/-!  ## Data model

One record per row of the two canonical tables.  Field names keep the
source's column names (the `__`-prefixed duration columns lose the
prefix, which Lean does not allow in identifiers).  The source also
derives a sample standard deviation of duration (`std_duration`), a
display-only column no claim references; being an irrational square
root it is outside the rational model and is omitted here. -/

/-- One row of the messages table, after `DataProcessor._process_messages`. -/
structure Message where
  messageID : Nat
  sessionID : Option Nat
  contactID : Option Nat
  messageDirection : String
  messageChannel : Option String
  messageValue : Option String
  createdAt : Option ℚ      -- POSIX seconds; `none` = unparseable timestamp
  date : Option Nat          -- derived calendar date (encoded as an ordinal)
  hour : Option Nat          -- derived hour of day
  weekday_num : Option Nat   -- derived weekday index
deriving Repr, DecidableEq

/-- One row of the sessions table, after `DataProcessor._process_sessions`.
The duration fields carry the source's `__sessionDuration`,
`__sessionQueueDuration`, `__sessionManualDuration` (seconds). -/
structure Session where
  sessionID : Nat
  contactID : Option Nat
  operatorFirstname : Option String
  sessionDuration : Option ℚ
  sessionQueueDuration : Option ℚ
  sessionManualDuration : Option ℚ
  sessionRatingStars : Option ℚ
  sessionMessagesCount : Option ℚ
  hour : Option Nat
  weekday : Option String
  closeMotive : Option String
deriving Repr, DecidableEq

/-!  ## Record Normalizer: rating buckets

`DataProcessor._process_sessions` categorises `sessionRatingStars` with
`pd.cut(bins=[0, 2, 3, 4, 5], labels=['Ruim', 'Regular', 'Bom',
'Excelente'], include_lowest=True)`.  `pd.cut` uses right-closed
intervals (`right=True` is the default), and `include_lowest` closes the
first interval on the left, so the buckets are [0,2], (2,3], (3,4],
(4,5]; a value outside [0,5] gets the null category. -/
def rating_category (r : ℚ) : Option String :=
  if r < 0 then none
  else if r ≤ 2 then some "Ruim"
  else if r ≤ 3 then some "Regular"
  else if r ≤ 4 then some "Bom"
  else if r ≤ 5 then some "Excelente"
  else none

/-!  ## Aggregation Engine: operator performance
(`CXAnalytics.operator_performance_analysis`)

`groupby('operatorFirstname')` drops rows whose operator is null, so a
group is the sessions whose operator equals the (non-null) key.  The
per-group aggregates below mirror the `agg` dictionary and the explicit
efficiency / satisfaction computations of the source. -/

/-- Sessions of one operator (one `groupby('operatorFirstname')` group). -/
def operatorSessions (ss : List Session) (op : String) : List Session :=
  ss.filter (fun s => s.operatorFirstname == some op)

/-- The distinct non-null operator names (the groupby keys). -/
def distinctOperators (ss : List Session) : List String :=
  (ss.filterMap (·.operatorFirstname)).dedup

/-- Non-null `__sessionDuration` values of an operator's sessions — the
exact column that the duration mean/median aggregate over.  Note that a
zero or negative duration is non-null and therefore kept. -/
def opDurations (ss : List Session) (op : String) : List ℚ :=
  (operatorSessions ss op).filterMap (·.sessionDuration)

/-- Non-null queue durations of an operator's sessions. -/
def opQueueDurations (ss : List Session) (op : String) : List ℚ :=
  (operatorSessions ss op).filterMap (·.sessionQueueDuration)

/-- Non-null manual-handling durations of an operator's sessions. -/
def opManualDurations (ss : List Session) (op : String) : List ℚ :=
  (operatorSessions ss op).filterMap (·.sessionManualDuration)

/-- Non-null ratings of an operator's sessions. -/
def opRatings (ss : List Session) (op : String) : List ℚ :=
  (operatorSessions ss op).filterMap (·.sessionRatingStars)

/-- Non-null message counts of an operator's sessions. -/
def opMessagesCounts (ss : List Session) (op : String) : List ℚ :=
  (operatorSessions ss op).filterMap (·.sessionMessagesCount)

/-- `total_sessions`: `count` of `sessionID` (never null) in the group. -/
def op_total_sessions (ss : List Session) (op : String) : Nat :=
  (operatorSessions ss op).length

/-- `avg_duration`: mean of the group's non-null durations, `.round(2)`. -/
def op_avg_duration (ss : List Session) (op : String) : PFloat :=
  round2P (pmean (opDurations ss op))

/-- `median_duration`. -/
def op_median_duration (ss : List Session) (op : String) : PFloat :=
  round2P (pmedian (opDurations ss op))

/-- `avg_rating`. -/
def op_avg_rating (ss : List Session) (op : String) : PFloat :=
  round2P (pmean (opRatings ss op))

/-- `total_ratings`: `count` of non-null ratings. -/
def op_total_ratings (ss : List Session) (op : String) : Nat :=
  (opRatings ss op).length

/-- `efficiency_sessions_per_hour = total_sessions / (avg_duration / 3600)`,
then `.round(2)` — an unguarded float division. -/
def op_efficiency (ss : List Session) (op : String) : PFloat :=
  round2P (PFloat.div (.finite (op_total_sessions ss op))
    (PFloat.div (op_avg_duration ss op) (.finite 3600)))

/-- `high_ratings`: rows of the group whose rating is `>= 4` (a null
rating compares false). -/
def op_high_ratings (ss : List Session) (op : String) : Nat :=
  ((operatorSessions ss op).filter (fun s =>
    match s.sessionRatingStars with
    | some r => decide (4 ≤ r)
    | none => false)).length

/-- `satisfaction_rate = high_ratings / total_ratings * 100` when the
group has ratings, else the guarded value `0`. -/
def op_satisfaction_rate (ss : List Session) (op : String) : ℚ :=
  if 0 < op_total_ratings ss op then
    (op_high_ratings ss op : ℚ) / (op_total_ratings ss op : ℚ) * 100
  else 0

/-- One row of the operator-performance table.  (The source's
`std_duration` column is display-only, referenced by no claim, and is an
irrational square root, so it is not carried in the rational model.) -/
structure OperatorMetrics where
  total_sessions : Nat
  avg_duration : PFloat
  median_duration : PFloat
  avg_queue_time : PFloat
  median_queue_time : PFloat
  avg_manual_time : PFloat
  median_manual_time : PFloat
  avg_rating : PFloat
  total_ratings : Nat
  total_messages : ℚ
  avg_messages_per_session : PFloat
  efficiency_sessions_per_hour : PFloat
  satisfaction_rate : ℚ
deriving Repr, DecidableEq

/-- The operator-performance row for one groupby key. -/
def operatorRow (ss : List Session) (op : String) : OperatorMetrics :=
  { total_sessions := op_total_sessions ss op
    avg_duration := op_avg_duration ss op
    median_duration := op_median_duration ss op
    avg_queue_time := round2P (pmean (opQueueDurations ss op))
    median_queue_time := round2P (pmedian (opQueueDurations ss op))
    avg_manual_time := round2P (pmean (opManualDurations ss op))
    median_manual_time := round2P (pmedian (opManualDurations ss op))
    avg_rating := op_avg_rating ss op
    total_ratings := op_total_ratings ss op
    total_messages := round2 (psum (opMessagesCounts ss op))
    avg_messages_per_session := round2P (pmean (opMessagesCounts ss op))
    efficiency_sessions_per_hour := op_efficiency ss op
    satisfaction_rate := op_satisfaction_rate ss op }

/-- `CXAnalytics.operator_performance_analysis`: `None` on an empty
sessions table, otherwise one row per distinct operator, sorted by
`total_sessions` descending. -/
def operator_performance_analysis (ss : List Session) :
    Option (List (String × OperatorMetrics)) :=
  if ss.isEmpty then none
  else some (((distinctOperators ss).map (fun op => (op, operatorRow ss op))).insertionSort
    (fun a b => b.2.total_sessions ≤ a.2.total_sessions))

/-!  ## Aggregation Engine: temporal response-time profile
(`CXAnalytics.response_time_analysis`) -/

/-- Queue/duration statistics of one hour/weekday group, mirroring the
`agg` dictionary (`count` counts non-null queue durations). -/
structure TimeBucketStats where
  queue_mean : PFloat
  queue_median : PFloat
  queue_count : Nat
  dur_mean : PFloat
  dur_median : PFloat
deriving Repr, DecidableEq

/-- Aggregates of one `groupby` group of sessions. -/
def timeBucketStats (g : List Session) : TimeBucketStats :=
  let qs := g.filterMap (·.sessionQueueDuration)
  let ds := g.filterMap (·.sessionDuration)
  { queue_mean := round2P (pmean qs)
    queue_median := round2P (pmedian qs)
    queue_count := qs.length
    dur_mean := round2P (pmean ds)
    dur_median := round2P (pmedian ds) }

/-- Distinct non-null session hours, ascending (groupby sorts its keys). -/
def sessionHours (ss : List Session) : List Nat :=
  ((ss.filterMap (·.hour)).dedup).insertionSort (· ≤ ·)

/-- Distinct non-null weekday names (key order immaterial downstream). -/
def sessionWeekdays (ss : List Session) : List String :=
  (ss.filterMap (·.weekday)).dedup

/-- Sessions whose derived hour is `h`. -/
def sessionsAtHour (ss : List Session) (h : Nat) : List Session :=
  ss.filter (·.hour == some h)

/-- Non-null durations of the sessions at hour `h` — the column averaged
by the hourly duration mean. -/
def hourDurations (ss : List Session) (h : Nat) : List ℚ :=
  (sessionsAtHour ss h).filterMap (·.sessionDuration)

/-- Hourly mean session duration (`groupby('hour')`, mean, `.round(2)`). -/
def hour_avg_duration (ss : List Session) (h : Nat) : PFloat :=
  round2P (pmean (hourDurations ss h))

/-- `CXAnalytics.response_time_analysis`: `None` on an empty sessions
table, else the hourly and weekday statistic tables. -/
def response_time_analysis (ss : List Session) :
    Option (List (Nat × TimeBucketStats) × List (String × TimeBucketStats)) :=
  if ss.isEmpty then none
  else some
    ((sessionHours ss).map (fun h => (h, timeBucketStats (sessionsAtHour ss h))),
     (sessionWeekdays ss).map (fun w => (w, timeBucketStats (ss.filter (·.weekday == some w)))))

/-!  ## Classifier Layer: keyword sentiment
(`CXAnalytics.message_sentiment_analysis`) -/

/-- The fixed negative/problem keyword list of the source. -/
def problem_keywords : List String :=
  ["problema", "erro", "falha", "ruim", "péssimo", "terrível", "horrível",
   "demora", "lento", "não funciona", "quebrado", "defeito", "reclamação",
   "insatisfeito", "cancelar", "reembolso", "devolver"]

/-- The fixed positive/satisfaction keyword list of the source. -/
def positive_keywords : List String :=
  ["obrigado", "obrigada", "excelente", "ótimo", "perfeito", "maravilhoso",
   "satisfeito", "feliz", "recomendo", "parabéns", "adorei", "amei"]

/-- Does the text start with the keyword (character-wise)? -/
def hasLead : List Char → List Char → Bool
  | [], _ => true
  | _ :: _, [] => false
  | a :: ks, b :: ts => a == b && hasLead ks ts

/-- Does the keyword occur somewhere in the text? -/
def hasOcc (k : List Char) : List Char → Bool
  | [] => k.isEmpty
  | c :: rest => hasLead k (c :: rest) || hasOcc k rest

/-- Python's `keyword in text` substring test (multi-word keywords such
as "não funciona" match as plain substrings, not token-wise). -/
def containsSub (t k : String) : Bool := hasOcc k.data t.data

/-- `sum(1 for keyword in kws if keyword in t)`: the number of keywords
of the list that occur in the text (each counted once). -/
def keyword_count (kws : List String) (t : String) : Nat :=
  (kws.filter (fun k => containsSub t k)).length

/-- `detect_sentiment` of the source, applied to the lower-cased content
(`None` models a NaN cell, classified neutral by the `isna` branch). -/
def detect_sentiment (v : Option String) : String :=
  match v with
  | none => "neutral"
  | some t =>
    let p := keyword_count problem_keywords t
    let q := keyword_count positive_keywords t
    if q < p then "negative"
    else if p < q then "positive"
    else "neutral"

/-- `.str.lower()`: character-wise lower-casing.  (`Char.toLower` folds
ASCII letters; Python also folds accented capitals, which no fixed
keyword contains, so the two agree on keyword matching.) -/
def strLower (s : String) : String := ⟨s.data.map Char.toLower⟩

/-- The full per-message pipeline: lower-case the content
(`.str.lower()`), then detect. -/
def message_sentiment (m : Message) : String :=
  detect_sentiment (m.messageValue.map strLower)

/-- The inbound messages with non-null content — the rows the sentiment
analysis classifies. -/
def inboundMessages (ms : List Message) : List Message :=
  ms.filter (fun m => m.messageDirection == "inbound" && m.messageValue.isSome)

/-- Output of the sentiment analysis: label counts (`value_counts`), the
per-date×label breakdown (`unstack(fill_value=0)` materialises every
label column), and the first ten negative message texts. -/
structure SentimentResult where
  overall : String → Nat
  by_date : List ((Nat × String) × Nat)
  sample_negative : List String

/-- `CXAnalytics.message_sentiment_analysis`: `None` on an empty
messages table and `None` again when no inbound message has content. -/
def message_sentiment_analysis (ms : List Message) : Option SentimentResult :=
  if ms.isEmpty then none
  else
    let inbound := inboundMessages ms
    if inbound.isEmpty then none
    else some
      { overall := fun lab => (inbound.filter (fun m => message_sentiment m == lab)).length
        by_date := ((inbound.filterMap (·.date)).dedup).flatMap (fun d =>
          ["negative", "neutral", "positive"].map (fun lab =>
            ((d, lab),
             (inbound.filter (fun m => m.date == some d && message_sentiment m == lab)).length)))
        sample_negative :=
          (((inbound.filter (fun m => message_sentiment m == "negative")).take 10).filterMap
            (·.messageValue)) }

/-!  ## Aggregation Engine: peak-volume profile
(`CXAnalytics.peak_hours_analysis`) -/

/-- Distinct non-null message hours, ascending (the index of
`groupby(['hour', 'messageDirection']) ... unstack()`). -/
def messageHours (ms : List Message) : List Nat :=
  ((ms.filterMap (·.hour)).dedup).insertionSort (· ≤ ·)

/-- Total volume of one hour: `hourly_volume.sum(axis=1)` sums the
direction counts back to the number of messages with that hour. -/
def hourTotal (ms : List Message) (h : Nat) : Nat :=
  (ms.filter (·.hour == some h)).length

/-- The hourly-total distribution, in hour order. -/
def hourlyTotals (ms : List Message) : List ℚ :=
  (messageHours ms).map (fun h => (hourTotal ms h : ℚ))

/-- Linear-interpolation quantile of a sorted list: index
`h = p·(n−1)`, result `s[⌊h⌋] + (h − ⌊h⌋)·(s[⌊h⌋+1] − s[⌊h⌋])`. -/
def quantileSorted (s : List ℚ) (p : ℚ) : Option ℚ :=
  if s.isEmpty then none
  else
    let h : ℚ := p * ((s.length : ℚ) - 1)
    let i : Nat := (⌊h⌋).toNat
    let lo := s.getD i 0
    let hi := s.getD (min (i + 1) (s.length - 1)) 0
    some (lo + (h - (i : ℚ)) * (hi - lo))

/-- `Series.quantile(p)` with the default `interpolation='linear'`;
`None` models the NaN returned on an empty series. -/
def quantileLinear (l : List ℚ) (p : ℚ) : Option ℚ :=
  quantileSorted (l.insertionSort (· ≤ ·)) p

/-- `peak_hours`: the hours whose total volume is `>=` the 80th
percentile of the hourly totals (`total_hourly.quantile(0.8)`).  When
every hour is null the series is empty, its quantile is NaN, and the
comparison selects nothing. -/
def peak_hours (ms : List Message) : List Nat :=
  match quantileLinear (hourlyTotals ms) (4/5) with
  | none => []
  | some t => (messageHours ms).filter (fun h => decide (t ≤ (hourTotal ms h : ℚ)))

/-- Distinct message directions, as observed (the unstack columns). -/
def messageDirections (ms : List Message) : List String :=
  (ms.map (·.messageDirection)).dedup

/-- Output of the peak-volume analysis. -/
structure PeakHoursResult where
  hourly_volume : List (Nat × List (String × Nat))
  peak_hours : List Nat
  heatmap_data : List ((Nat × Nat) × Nat)
deriving Repr, DecidableEq

/-- `CXAnalytics.peak_hours_analysis`: `None` on an empty messages table. -/
def peak_hours_analysis (ms : List Message) : Option PeakHoursResult :=
  if ms.isEmpty then none
  else
    let ph := peak_hours ms
    some
      { hourly_volume := (messageHours ms).map (fun h =>
          (h, (messageDirections ms).map (fun d =>
            (d, (ms.filter (fun m => m.hour == some h && m.messageDirection == d)).length))))
        peak_hours := ph
        heatmap_data := ((ms.filterMap (fun m =>
            match m.weekday_num, m.hour with
            | some w, some h => some (w, h)
            | _, _ => none)).dedup).map (fun wh =>
          (wh, (ms.filter (fun m =>
            m.weekday_num == some wh.1 && m.hour == some wh.2)).length)) }

/-!  ## Aggregation Engine: channel efficiency
(`CXAnalytics.channel_efficiency_analysis`) -/

/-- Distinct non-null channels (the groupby keys). -/
def messageChannels (ms : List Message) : List String :=
  (ms.filterMap (·.messageChannel)).dedup

/-- Messages of one channel group. -/
def channelMessages (ms : List Message) (c : String) : List Message :=
  ms.filter (·.messageChannel == some c)

/-- `total_messages`: `count` of `messageID` (never null) in the group. -/
def channel_total_messages (ms : List Message) (c : String) : Nat :=
  (channelMessages ms c).length

/-- `unique_sessions`: `nunique` of `sessionID` — null session ids are
dropped, so a group of orphan messages has zero unique sessions. -/
def channel_unique_sessions (ms : List Message) (c : String) : Nat :=
  (((channelMessages ms c).filterMap (·.sessionID)).dedup).length

/-- `unique_contacts`: `nunique` of `contactID`. -/
def channel_unique_contacts (ms : List Message) (c : String) : Nat :=
  (((channelMessages ms c).filterMap (·.contactID)).dedup).length

/-- `messages_per_session = total_messages / unique_sessions`, then
`.round(2)` — an unguarded float division. -/
def channel_messages_per_session (ms : List Message) (c : String) : PFloat :=
  round2P (PFloat.div (.finite (channel_total_messages ms c))
    (.finite (channel_unique_sessions ms c)))

/-- One row of the channel-efficiency table. -/
structure ChannelStats where
  total_messages : Nat
  unique_sessions : Nat
  unique_contacts : Nat
  messages_per_session : PFloat
deriving Repr, DecidableEq

/-- `CXAnalytics.channel_efficiency_analysis`: `None` on an empty
messages table, else one row per channel sorted by message count
descending. -/
def channel_efficiency_analysis (ms : List Message) :
    Option (List (String × ChannelStats)) :=
  if ms.isEmpty then none
  else some ((((messageChannels ms).map (fun c =>
    (c, ({ total_messages := channel_total_messages ms c
           unique_sessions := channel_unique_sessions ms c
           unique_contacts := channel_unique_contacts ms c
           messages_per_session := channel_messages_per_session ms c } : ChannelStats)))).insertionSort
    (fun a b => b.2.total_messages ≤ a.2.total_messages)))

/-!  ## Aggregation Engine: resolution pattern
(`CXAnalytics.resolution_pattern_analysis`) -/

/-- `pd.cut(duration/60, bins=[0, 5, 15, 30, 60, inf], labels=[...])`
with the default `right=True` and no `include_lowest`: the bands are the
right-closed intervals (0,5], (5,15], (15,30], (30,60], (60,∞); a
duration of 0 minutes or less falls below the first bin edge and gets
the null category. -/
def duration_category (minutes : ℚ) : Option String :=
  if minutes ≤ 0 then none
  else if minutes ≤ 5 then some "Muito Rápida (0-5min)"
  else if minutes ≤ 15 then some "Rápida (5-15min)"
  else if minutes ≤ 30 then some "Média (15-30min)"
  else if minutes ≤ 60 then some "Longa (30-60min)"
  else some "Muito Longa (60min+)"

/-- The five band labels, in bin order (a categorical groupby keeps
every declared category). -/
def duration_labels : List String :=
  ["Muito Rápida (0-5min)", "Rápida (5-15min)", "Média (15-30min)",
   "Longa (30-60min)", "Muito Longa (60min+)"]

/-- The non-null ratings of the sessions falling in one duration band
(sessions with a null duration have a null category and are dropped by
the groupby; null ratings are skipped by `count`/`mean`). -/
def bandRatings (ss : List Session) (label : String) : List ℚ :=
  ss.filterMap (fun s =>
    match s.sessionDuration with
    | none => none
    | some d => if duration_category (d / 60) = some label then s.sessionRatingStars else none)

/-- `groupby('category')['rating'].agg(['count', 'mean']).round(2)` for
one band: rating count and mean rating. -/
def duration_band_stats (ss : List Session) (label : String) : Nat × PFloat :=
  ((bandRatings ss label).length, round2P (pmean (bandRatings ss label)))

/-- Distinct non-null close motives (the groupby keys). -/
def closeMotives (ss : List Session) : List String :=
  (ss.filterMap (·.closeMotive)).dedup

/-- One row of the close-motive table. -/
structure CloseMotiveStats where
  total_sessions : Nat
  avg_duration : PFloat
  avg_messages : PFloat
  avg_rating : PFloat
deriving Repr, DecidableEq

/-- Aggregates of one close-motive group. -/
def close_motive_stats (ss : List Session) (c : String) : CloseMotiveStats :=
  let g := ss.filter (·.closeMotive == some c)
  { total_sessions := g.length
    avg_duration := round2P (pmean (g.filterMap (·.sessionDuration)))
    avg_messages := round2P (pmean (g.filterMap (·.sessionMessagesCount)))
    avg_rating := round2P (pmean (g.filterMap (·.sessionRatingStars))) }

/-- Output of the resolution-pattern analysis.  (In the source each part
is additionally `None` when its column is absent; the embedded schema
always carries both columns.) -/
structure ResolutionResult where
  close_motives : List (String × CloseMotiveStats)
  duration_analysis : List (String × Nat × PFloat)
deriving Repr, DecidableEq

/-- `CXAnalytics.resolution_pattern_analysis`: `None` on an empty
sessions table. -/
def resolution_pattern_analysis (ss : List Session) : Option ResolutionResult :=
  if ss.isEmpty then none
  else some
    { close_motives := (closeMotives ss).map (fun c => (c, close_motive_stats ss c))
      duration_analysis := duration_labels.map (fun l => (l, duration_band_stats ss l)) }

/-!  ## Classifier Layer: customer segmentation
(`CXAnalytics.customer_journey_analysis`) -/

/-- `classify_customer` of the source, a function of the contact's
distinct-session count. -/
def classify_customer (total_sessions : Nat) : String :=
  if total_sessions = 1 then "Único Contato"
  else if total_sessions ≤ 3 then "Ocasional"
  else if total_sessions ≤ 10 then "Regular"
  else "Frequente"

/-- Distinct non-null contact ids of the messages table. -/
def messageContacts (ms : List Message) : List Nat :=
  (ms.filterMap (·.contactID)).dedup

/-- Messages of one contact group. -/
def contactMessages (ms : List Message) (c : Nat) : List Message :=
  ms.filter (·.contactID == some c)

/-- One row of the per-contact journey table. -/
structure Journey where
  total_sessions : Nat
  total_messages : Nat
  first_contact : Option ℚ
  last_contact : Option ℚ
  relationship_days : Option ℤ
  customer_type : String
deriving Repr, DecidableEq

/-- The journey row of one contact: distinct sessions, message count,
first/last interaction time, relationship span in whole days
(`.dt.days` of the nonnegative timedelta truncates downward), and the
customer tier. -/
def contactJourney (ms : List Message) (c : Nat) : Journey :=
  let g := contactMessages ms c
  let times := g.filterMap (·.createdAt)
  let ts := ((g.filterMap (·.sessionID)).dedup).length
  { total_sessions := ts
    total_messages := g.length
    first_contact := times.min?
    last_contact := times.max?
    relationship_days :=
      match times.min?, times.max? with
      | some a, some b => some ⌊(b - a) / 86400⌋
      | _, _ => none
    customer_type := classify_customer ts }

/-- Output of the customer-journey analysis: the per-contact table, the
per-tier means, and the tier population counts (`value_counts`). -/
structure JourneyResult where
  individual_journey : List (Nat × Journey)
  customer_types : String → PFloat × PFloat × PFloat
  type_distribution : String → Nat

/-- `CXAnalytics.customer_journey_analysis`: `None` on an empty messages
table. -/
def customer_journey_analysis (ms : List Message) : Option JourneyResult :=
  if ms.isEmpty then none
  else
    let rows := (messageContacts ms).map (fun c => (c, contactJourney ms c))
    some
      { individual_journey := rows
        customer_types := fun ty =>
          let g := rows.filter (fun r => r.2.customer_type == ty)
          (round2P (pmean (g.map (fun r => (r.2.total_sessions : ℚ)))),
           round2P (pmean (g.map (fun r => (r.2.total_messages : ℚ)))),
           round2P (pmean (g.filterMap (fun r => r.2.relationship_days.map (fun d => (d : ℚ))))))
        type_distribution := fun ty =>
          (rows.filter (fun r => r.2.customer_type == ty)).length }

/-!  ## Insight Summarizer (`CXAnalytics.generate_insights_report`)

The source renders each insight as a formatted string; the string
formatting is display glue, so an insight is embedded as a constructor
carrying exactly the data interpolated into the string. -/

/-- One fact of the insights report. -/
inductive Insight where
  | bestOperator (name : String) (avg_rating : PFloat)
  | mostEfficient (name : String) (eff : PFloat)
  | negativePct (pct : PFloat)
  | peakHoursFact (hs : List Nat)
  | frequentPct (pct : PFloat)
deriving Repr, DecidableEq

/-- Strict `<` on float values (NaN compares false to everything). -/
def PFloat.ltb : PFloat → PFloat → Bool
  | .nan, _ => false
  | _, .nan => false
  | .ninf, .ninf => false
  | .ninf, _ => true
  | _, .ninf => false
  | .finite a, .finite b => decide (a < b)
  | .finite _, .pinf => true
  | .pinf, _ => false

/-- `Series.idxmax`: the first row attaining the maximum value, NaN
rows skipped; `none` when no row has a comparable value (where pandas
would raise — a path no embedded claim exercises). -/
def idxmaxBy {α : Type} (f : α → PFloat) (l : List α) : Option α :=
  l.foldl (fun acc x =>
    if f x = .nan then acc
    else
      match acc with
      | none => some x
      | some y => if PFloat.ltb (f y) (f x) then some x else acc) none

/-- `CXAnalytics.generate_insights_report`: each block contributes its
facts only when its analysis returned data; with every analysis absent
the report is the empty list. -/
def generate_insights_report (ms : List Message) (ss : List Session) : List Insight :=
  (match operator_performance_analysis ss with
   | none => []
   | some perf =>
     (match idxmaxBy (fun r => r.2.avg_rating) perf with
      | some b => [Insight.bestOperator b.1 b.2.avg_rating]
      | none => []) ++
     (match idxmaxBy (fun r => r.2.efficiency_sessions_per_hour) perf with
      | some e => [Insight.mostEfficient e.1 e.2.efficiency_sessions_per_hour]
      | none => [])) ++
  (match message_sentiment_analysis ms with
   | none => []
   | some st =>
     [Insight.negativePct (PFloat.div
       (.finite (100 * (st.overall "negative" : ℚ)))
       (.finite ((st.overall "negative" : ℚ) + (st.overall "neutral" : ℚ) +
                 (st.overall "positive" : ℚ))))]) ++
  (match peak_hours_analysis ms with
   | none => []
   | some pa => [Insight.peakHoursFact pa.peak_hours]) ++
  (match customer_journey_analysis ms with
   | none => []
   | some j =>
     [Insight.frequentPct (PFloat.div
       (.finite (100 * (j.type_distribution "Frequente" : ℚ)))
       (.finite (j.individual_journey.length : ℚ)))])

/-!  ## Concrete tables used by the claim theorems -/

/-- Template session record (all nullable fields null). -/
def baseSession : Session :=
  { sessionID := 0, contactID := none, operatorFirstname := none,
    sessionDuration := none, sessionQueueDuration := none,
    sessionManualDuration := none, sessionRatingStars := none,
    sessionMessagesCount := none, hour := none, weekday := none,
    closeMotive := none }

/-- Template message record (all nullable fields null). -/
def baseMessage : Message :=
  { messageID := 0, sessionID := none, contactID := none,
    messageDirection := "inbound", messageChannel := none,
    messageValue := none, createdAt := none, date := none,
    hour := none, weekday_num := none }

/-- The spec's operator scenario: three sessions for "Ana" with ratings
[5, 5, 4] and durations [600, 1200, 900] seconds. -/
def anaSessions : List Session :=
  [{ baseSession with
      sessionID := 1
      operatorFirstname := some "Ana"
      sessionDuration := some 600
      sessionRatingStars := some 5 },
   { baseSession with
      sessionID := 2
      operatorFirstname := some "Ana"
      sessionDuration := some 1200
      sessionRatingStars := some 5 },
   { baseSession with
      sessionID := 3
      operatorFirstname := some "Ana"
      sessionDuration := some 900
      sessionRatingStars := some 4 }]

/-- One operator whose only session has duration 0 seconds. -/
def zeroDurSessions : List Session :=
  [{ baseSession with
      sessionID := 1
      operatorFirstname := some "A"
      sessionDuration := some 0 }]

/-- Operator "A" with one zero duration and one 600-second duration. -/
def mixedDurSessions : List Session :=
  [{ baseSession with
      sessionID := 1
      operatorFirstname := some "A"
      sessionDuration := some 0
      hour := some 10 },
   { baseSession with
      sessionID := 2
      operatorFirstname := some "A"
      sessionDuration := some 600 }]

/-- One channel whose only message is an orphan (null session id). -/
def orphanMessages : List Message :=
  [{ baseMessage with messageID := 1, messageChannel := some "chat" }]

/-- Three messages: one at hour 0 and two at hour 1. -/
def peakExampleMessages : List Message :=
  [{ baseMessage with messageID := 1, hour := some 0 },
   { baseMessage with messageID := 2, hour := some 1 },
   { baseMessage with messageID := 3, hour := some 1 }]

/-- Two sessions in the first duration band (2 and 4 minutes) with
ratings 4 and 5. -/
def bandExampleSessions : List Session :=
  [{ baseSession with
      sessionID := 1
      sessionDuration := some 120
      sessionRatingStars := some 4 },
   { baseSession with
      sessionID := 2
      sessionDuration := some 240
      sessionRatingStars := some 5 }]

/-!  ## Claim theorems -/

/-- C1, counterexample: the rating buckets are not the half-open
intervals the claim states — a rating of exactly 2.0 is not bucketed
"Regular", 3.0 is not "Bom" (Good), and 4.0 is not "Excelente"
(Excellent). -/
theorem C1_counterexample :
    rating_category 2 ≠ some "Regular" ∧
    rating_category 3 ≠ some "Bom" ∧
    rating_category 4 ≠ some "Excelente" := by decide

/-- C1, amended: the rating buckets are the right-closed intervals of
`pd.cut(..., right=True, include_lowest=True)` — Poor [0,2],
Regular (2,3], Good (3,4], Excellent (4,5] — so a rating of exactly 2.0
is "Ruim" (Poor), 3.0 is "Regular", and 4.0 is "Bom" (Good). -/
theorem C1_rating_buckets :
    (∀ r : ℚ,
      (rating_category r = some "Ruim" ↔ 0 ≤ r ∧ r ≤ 2) ∧
      (rating_category r = some "Regular" ↔ 2 < r ∧ r ≤ 3) ∧
      (rating_category r = some "Bom" ↔ 3 < r ∧ r ≤ 4) ∧
      (rating_category r = some "Excelente" ↔ 4 < r ∧ r ≤ 5)) ∧
    rating_category 2 = some "Ruim" ∧
    rating_category 3 = some "Regular" ∧
    rating_category 4 = some "Bom" := by
  refine ⟨fun r => ?_, by decide, by decide, by decide⟩
  unfold rating_category
  refine ⟨?_, ?_, ?_, ?_⟩ <;>
    (split_ifs <;>
      first
        | exact iff_of_true rfl (by constructor <;> linarith)
        | exact iff_of_false (by decide) (by rintro ⟨a, b⟩; linarith))

/-- C4, counterexample: the duration bands are not half-open on the
left — a session of exactly 0 minutes falls in no band (null category,
not the first band), and one of exactly 5 minutes falls in the first
band, not the second. -/
theorem C4_counterexample :
    duration_category 0 = none ∧
    duration_category 5 = some "Muito Rápida (0-5min)" ∧
    (none : Option String) ≠ some "Muito Rápida (0-5min)" ∧
    (some "Muito Rápida (0-5min)" : Option String) ≠ some "Rápida (5-15min)" := by
  decide

/-- C4, amended: the resolution-pattern analysis buckets duration into
the five right-closed bands (0,5], (5,15], (15,30], (30,60], (60,∞) of
`pd.cut` (default `right=True`, no `include_lowest`); a session of
exactly 0 minutes is unbucketed (null category) and one of exactly 5
minutes falls in the first band; rating count and mean rating are
computed per band. -/
theorem C4_duration_bands :
    (∀ m : ℚ,
      (duration_category m = some "Muito Rápida (0-5min)" ↔ 0 < m ∧ m ≤ 5) ∧
      (duration_category m = some "Rápida (5-15min)" ↔ 5 < m ∧ m ≤ 15) ∧
      (duration_category m = some "Média (15-30min)" ↔ 15 < m ∧ m ≤ 30) ∧
      (duration_category m = some "Longa (30-60min)" ↔ 30 < m ∧ m ≤ 60) ∧
      (duration_category m = some "Muito Longa (60min+)" ↔ 60 < m) ∧
      (duration_category m = none ↔ m ≤ 0)) ∧
    duration_band_stats bandExampleSessions "Muito Rápida (0-5min)" =
      (2, PFloat.finite (9/2)) := by
  refine ⟨fun m => ?_, by decide⟩
  unfold duration_category
  refine ⟨?_, ?_, ?_, ?_, ?_, ?_⟩ <;>
    (split_ifs <;>
      first
        | exact iff_of_true rfl (by constructor <;> linarith)
        | exact iff_of_true rfl (by linarith)
        | exact iff_of_false (by decide) (by rintro ⟨a, b⟩; linarith)
        | exact iff_of_false (by decide) (by intro a; linarith))

/-- C6: customer-segmentation tiers are exhaustive and disjoint over
the session count — exactly 1 session is "Único Contato"
(Single-Contact), 2–3 "Ocasional", 4–10 "Regular", 11+ "Frequente" —
and in particular 3 ↦ Ocasional, 4 ↦ Regular, 10 ↦ Regular,
11 ↦ Frequente. -/
theorem C6_segmentation (n : ℕ) (hn : 1 ≤ n) :
    ((classify_customer n = "Único Contato" ↔ n = 1) ∧
     (classify_customer n = "Ocasional" ↔ 2 ≤ n ∧ n ≤ 3) ∧
     (classify_customer n = "Regular" ↔ 4 ≤ n ∧ n ≤ 10) ∧
     (classify_customer n = "Frequente" ↔ 11 ≤ n)) ∧
    (classify_customer n = "Único Contato" ∨ classify_customer n = "Ocasional" ∨
     classify_customer n = "Regular" ∨ classify_customer n = "Frequente") ∧
    classify_customer 3 = "Ocasional" ∧ classify_customer 4 = "Regular" ∧
    classify_customer 10 = "Regular" ∧ classify_customer 11 = "Frequente" := by
  unfold classify_customer
  refine ⟨⟨?_, ?_, ?_, ?_⟩, ?_, by decide, by decide, by decide, by decide⟩ <;>
    split_ifs <;>
    first
      | exact iff_of_true rfl (by omega)
      | exact iff_of_false (by decide) (by omega)
      | decide

/-- C6, witness: the characterization applied at a concrete count. -/
theorem C6_segmentation_witness : classify_customer 7 = "Regular" :=
  ((C6_segmentation 7 (by decide)).1.2.2.1).mpr (by decide)

/-- C7: on an empty messages table and an empty sessions table every
aggregation returns the explicit absence `none`, and the insight report
is the empty fact list. -/
theorem C7_empty_tables :
    operator_performance_analysis [] = none ∧
    response_time_analysis [] = none ∧
    message_sentiment_analysis [] = none ∧
    peak_hours_analysis [] = none ∧
    channel_efficiency_analysis [] = none ∧
    resolution_pattern_analysis [] = none ∧
    customer_journey_analysis [] = none ∧
    generate_insights_report [] [] = [] :=
  ⟨rfl, rfl, rfl, rfl, rfl, rfl, rfl, rfl⟩

/-- C9: for operator "Ana" with ratings [5, 5, 4] and durations
[600, 1200, 900] seconds, the operator row has 3 sessions, mean
duration 900 s, avg_rating 4.67, satisfaction_rate 100.0 (all three
ratings ≥ 4 out of three non-null ratings), and efficiency
3 / (900/3600) = 12.0 sessions per hour. -/
theorem C9_ana_scenario :
    (operatorRow anaSessions "Ana").total_sessions = 3 ∧
    (operatorRow anaSessions "Ana").avg_duration = PFloat.finite 900 ∧
    (operatorRow anaSessions "Ana").avg_rating = PFloat.finite (467/100) ∧
    (operatorRow anaSessions "Ana").total_ratings = 3 ∧
    op_high_ratings anaSessions "Ana" = 3 ∧
    (operatorRow anaSessions "Ana").satisfaction_rate = 100 ∧
    (operatorRow anaSessions "Ana").efficiency_sessions_per_hour = PFloat.finite 12 := by
  decide

/-- C5: the sentiment label is "negative" exactly when the
negative-keyword count of the lower-cased content exceeds the positive
count, "positive" exactly when the positive count exceeds the negative
count, "neutral" otherwise and on null content; and the message
"o sistema não funciona, que problema" has negative count 2
("não funciona", "problema"), positive count 0, and label "negative". -/
theorem C5_sentiment_rule :
    (∀ m : Message,
      (m.messageValue = none → message_sentiment m = "neutral") ∧
      (message_sentiment m = "negative" ↔ ∃ t, m.messageValue = some t ∧
        keyword_count positive_keywords (strLower t) < keyword_count problem_keywords (strLower t)) ∧
      (message_sentiment m = "positive" ↔ ∃ t, m.messageValue = some t ∧
        keyword_count problem_keywords (strLower t) < keyword_count positive_keywords (strLower t)) ∧
      (message_sentiment m = "neutral" ↔ (m.messageValue = none ∨ ∃ t, m.messageValue = some t ∧
        keyword_count problem_keywords (strLower t) = keyword_count positive_keywords (strLower t)))) ∧
    keyword_count problem_keywords "o sistema não funciona, que problema" = 2 ∧
    keyword_count positive_keywords "o sistema não funciona, que problema" = 0 ∧
    containsSub "o sistema não funciona, que problema" "não funciona" = true ∧
    containsSub "o sistema não funciona, que problema" "problema" = true ∧
    message_sentiment { baseMessage with
      messageValue := some "o sistema não funciona, que problema" } = "negative" := by
  refine ⟨fun m => ?_, by decide, by decide, by decide, by decide, by decide⟩
  cases hv : m.messageValue with
  | none =>
    simp [message_sentiment, hv, detect_sentiment]
  | some t =>
    simp only [message_sentiment, hv, Option.map_some', detect_sentiment]
    refine ⟨fun h => by simp at h, ?_, ?_, ?_⟩ <;>
      (split_ifs with h1 h2 <;> simp <;> omega)

/-- C5, witness: the classification rule applied to the concrete
message of the claim. -/
theorem C5_sentiment_rule_witness :
    message_sentiment { baseMessage with
      messageValue := some "o sistema não funciona, que problema" } = "negative" :=
  ((C5_sentiment_rule.1 { baseMessage with
      messageValue := some "o sistema não funciona, que problema" }).2.1).mpr
    ⟨"o sistema não funciona, que problema", rfl, by decide⟩

/-- C2, counterexample: efficiency and messages-per-session are NOT
guarded against a zero denominator — an operator whose mean duration is
0 seconds gets efficiency +∞ (IEEE float division), and a channel whose
messages all have a null session id gets messages-per-session +∞;
neither is the neutral value 0 nor an absence. -/
theorem C2_counterexample :
    op_efficiency zeroDurSessions "A" = PFloat.pinf ∧
    channel_messages_per_session orphanMessages "chat" = PFloat.pinf ∧
    PFloat.pinf ≠ PFloat.finite 0 := by decide

/-- C2, amended: only the satisfaction rate is guarded against a zero
denominator (yielding 0 when no ratings exist); operator efficiency and
per-channel messages-per-session are unguarded float divisions that
yield +∞ when their denominator is zero and the numerator positive. -/
theorem C2_division_guards :
    (∀ (ss : List Session) (op : String), op_total_ratings ss op = 0 →
      op_satisfaction_rate ss op = 0) ∧
    (∀ (ss : List Session) (op : String), op_avg_duration ss op = PFloat.finite 0 →
      0 < op_total_sessions ss op → op_efficiency ss op = PFloat.pinf) ∧
    (∀ (ms : List Message) (c : String), channel_unique_sessions ms c = 0 →
      0 < channel_total_messages ms c → channel_messages_per_session ms c = PFloat.pinf) := by
  refine ⟨fun ss op h => ?_, fun ss op h hn => ?_, fun ms c h hn => ?_⟩
  · simp [op_satisfaction_rate, h]
  · unfold op_efficiency
    rw [h]
    have h1 : PFloat.div (PFloat.finite 0) (PFloat.finite 3600) = PFloat.finite 0 := by
      simp [PFloat.div]
    rw [h1]
    have h2 : ((op_total_sessions ss op : ℚ)) ≠ 0 := by
      exact_mod_cast Nat.pos_iff_ne_zero.mp hn
    have h3 : (0:ℚ) < (op_total_sessions ss op : ℚ) := by exact_mod_cast hn
    simp [PFloat.div, h2, h3, round2P]
  · unfold channel_messages_per_session
    rw [h]
    have h2 : ((channel_total_messages ms c : ℚ)) ≠ 0 := by
      exact_mod_cast Nat.pos_iff_ne_zero.mp hn
    have h3 : (0:ℚ) < (channel_total_messages ms c : ℚ) := by exact_mod_cast hn
    simp [PFloat.div, h2, h3, round2P]

/-- C2, witness: the three guard statements applied at concrete tables. -/
theorem C2_division_guards_witness :
    op_satisfaction_rate zeroDurSessions "A" = 0 ∧
    op_efficiency zeroDurSessions "A" = PFloat.pinf ∧
    channel_messages_per_session orphanMessages "chat" = PFloat.pinf :=
  ⟨C2_division_guards.1 zeroDurSessions "A" (by decide),
   C2_division_guards.2.1 zeroDurSessions "A" (by decide) (by decide),
   C2_division_guards.2.2 orphanMessages "chat" (by decide) (by decide)⟩

/-- C3, counterexample: a zero duration is NOT excluded from the
duration averages — for an operator with durations [0, 600] the mean
duration is 300, whereas excluding the non-positive value would give
600. -/
theorem C3_counterexample :
    op_avg_duration mixedDurSessions "A" = PFloat.finite 300 ∧
    round2P (pmean ((opDurations mixedDurSessions "A").filter
      (fun d => decide (0 < d)))) = PFloat.finite 600 ∧
    PFloat.finite (300:ℚ) ≠ PFloat.finite (600:ℚ) := by decide

/-- C3, amended: zero and negative durations are included in every
duration-average computation; only null durations are excluded (pandas
`mean` skips NaN only).  Every non-null duration of a session in the
group — whatever its sign — is part of the averaged column, and for the
operator with durations [0, 600] the mean is 300. -/
theorem C3_duration_inclusion :
    (∀ (ss : List Session) (op : String) (s : Session) (d : ℚ), s ∈ ss →
      s.operatorFirstname = some op → s.sessionDuration = some d →
      d ∈ opDurations ss op) ∧
    (∀ (ss : List Session) (h : Nat) (s : Session) (d : ℚ), s ∈ ss →
      s.hour = some h → s.sessionDuration = some d →
      d ∈ hourDurations ss h) ∧
    op_avg_duration mixedDurSessions "A" = PFloat.finite 300 := by
  refine ⟨fun ss op s d hs hop hd => ?_, fun ss h s d hs hh hd => ?_, by decide⟩
  · exact List.mem_filterMap.mpr ⟨s, List.mem_filter.mpr ⟨hs, by simp [hop]⟩, hd⟩
  · exact List.mem_filterMap.mpr ⟨s, List.mem_filter.mpr ⟨hs, by simp [hh]⟩, hd⟩

/-- C3, witness: the zero duration of the concrete table is in the
averaged column of its operator and of its hour. -/
theorem C3_duration_inclusion_witness :
    (0:ℚ) ∈ opDurations mixedDurSessions "A" ∧
    (0:ℚ) ∈ hourDurations mixedDurSessions 10 :=
  ⟨C3_duration_inclusion.1 mixedDurSessions "A"
      { baseSession with
        sessionID := 1
        operatorFirstname := some "A"
        sessionDuration := some 0
        hour := some 10 } 0 (by decide) rfl rfl,
   C3_duration_inclusion.2.1 mixedDurSessions 10
      { baseSession with
        sessionID := 1
        operatorFirstname := some "A"
        sessionDuration := some 0
        hour := some 10 } 0 (by decide) rfl rfl⟩

/-- C8: membership in the peak-hours set is exactly "total hourly
volume at or above the 80th percentile of the hourly-total
distribution", with the inclusive `≥` comparison and the
linear-interpolation percentile (`quantileLinear`, pandas'
`Series.quantile` default) as the one fixed percentile definition. -/
theorem C8_peak_threshold (ms : List Message) (t : ℚ)
    (ht : quantileLinear (hourlyTotals ms) (4/5) = some t) (h : Nat) :
    h ∈ peak_hours ms ↔ h ∈ messageHours ms ∧ t ≤ (hourTotal ms h : ℚ) := by
  unfold peak_hours
  rw [ht]
  simp [List.mem_filter]

/-- C8, witness: with hourly totals [1, 2] the 80th percentile is 1.8
and exactly hour 1 (total 2 ≥ 1.8) is a peak hour, hour 0 is not. -/
theorem C8_peak_threshold_witness :
    (1 ∈ peak_hours peakExampleMessages) ∧ ¬ (0 ∈ peak_hours peakExampleMessages) :=
  ⟨(C8_peak_threshold peakExampleMessages (9/5) (by decide) 1).mpr
      ⟨by decide, by decide⟩,
   fun hmem => absurd ((C8_peak_threshold peakExampleMessages (9/5) (by decide) 0).mp
      hmem).2 (by decide)⟩

/-- Auxiliary bound for the peak-hours invariant: on a sorted non-empty
list, the linearly interpolated 0.8-quantile is at most some element of
the list (it is a convex combination of two consecutive elements). -/
lemma quantileSorted_le_max (s : List ℚ) (hs : List.Sorted (· ≤ ·) s) (hne : s ≠ [])
    {t : ℚ} (ht : quantileSorted s (4/5) = some t) : ∃ x ∈ s, t ≤ x := by
  have hlen : 0 < s.length := List.length_pos.mpr hne
  unfold quantileSorted at ht
  rw [if_neg (by simpa [List.isEmpty_iff] using hne)] at ht
  simp only [Option.some.injEq] at ht
  set hq : ℚ := 4 / 5 * ((s.length : ℚ) - 1) with hhq
  have hq0 : 0 ≤ hq := by
    have : (1:ℚ) ≤ (s.length : ℚ) := by exact_mod_cast hlen
    rw [hhq]; nlinarith
  set i : Nat := (⌊hq⌋).toNat with hidef
  have hiq : (i : ℚ) = ((⌊hq⌋ : ℤ) : ℚ) := by
    rw [hidef]
    exact_mod_cast congrArg (fun z => ((z : ℤ) : ℚ))
      (Int.toNat_of_nonneg (Int.floor_nonneg.mpr hq0))
  have hfrac0 : 0 ≤ hq - (i:ℚ) := by rw [hiq]; linarith [Int.floor_le hq]
  have hfrac1 : hq - (i:ℚ) ≤ 1 := by rw [hiq]; linarith [Int.lt_floor_add_one hq]
  have hile : i ≤ s.length - 1 := by
    have h1 : hq ≤ (s.length : ℚ) - 1 := by
      have : (0:ℚ) ≤ (s.length : ℚ) - 1 := by
        have : (1:ℚ) ≤ (s.length : ℚ) := by exact_mod_cast hlen
        linarith
      rw [hhq]; nlinarith
    have h2 : (⌊hq⌋ : ℤ) ≤ (s.length : ℤ) - 1 := by
      have := Int.floor_le_floor h1
      rwa [show ((s.length : ℚ) - 1) = (((s.length : ℤ) - 1 : ℤ) : ℚ) by push_cast; ring,
        Int.floor_intCast] at this
    omega
  have hilt : i < s.length := by omega
  set j : Nat := min (i + 1) (s.length - 1) with hjdef
  have hjlt : j < s.length := by omega
  have hij : i ≤ j := by omega
  have hlohi : s.getD i 0 ≤ s.getD j 0 := by
    rw [List.getD_eq_getElem _ _ hilt, List.getD_eq_getElem _ _ hjlt]
    rcases Nat.lt_or_ge i j with hlt | hge
    · exact List.pairwise_iff_getElem.mp hs i j hilt hjlt hlt
    · have hij2 : i = j := Nat.le_antisymm hij hge
      simp [hij2]
  have hmem : s.getD j 0 ∈ s := by
    rw [List.getD_eq_getElem _ _ hjlt]; exact List.getElem_mem _
  refine ⟨s.getD j 0, hmem, ?_⟩
  nlinarith [mul_nonneg (show (0:ℚ) ≤ 1 - (hq - (i:ℚ)) by linarith)
    (show (0:ℚ) ≤ s.getD j 0 - s.getD i 0 by linarith)]

/-- On any non-empty distribution the 0.8-quantile exists and is at
most some element of the distribution. -/
lemma quantileLinear_le_max (l : List ℚ) (hne : l ≠ []) :
    ∃ t, quantileLinear l (4/5) = some t ∧ ∃ x ∈ l, t ≤ x := by
  have hs := List.sorted_insertionSort (· ≤ ·) l
  have hperm := List.perm_insertionSort (· ≤ ·) l
  have hne' : l.insertionSort (· ≤ ·) ≠ [] := by
    intro h
    exact hne (List.eq_nil_of_length_eq_zero (by rw [← hperm.length_eq, h]; rfl))
  obtain ⟨t, ht⟩ : ∃ t, quantileSorted (l.insertionSort (· ≤ ·)) (4/5) = some t := by
    unfold quantileSorted
    rw [if_neg (by simpa [List.isEmpty_iff] using hne')]
    exact ⟨_, rfl⟩
  obtain ⟨x, hx, hle⟩ := quantileSorted_le_max _ hs hne' ht
  exact ⟨t, ht, x, (List.mem_insertionSort _).mp hx, hle⟩

/-- C10: for every non-empty messages table in which at least one
message has a parsed hour, the peak-hours set is non-empty — the
linearly interpolated 80th percentile never exceeds every hourly total,
so some hour always meets the inclusive threshold. -/
theorem C10_peak_nonempty (ms : List Message) (_hms : ms ≠ [])
    (hh : ∃ m ∈ ms, m.hour ≠ none) : peak_hours ms ≠ [] := by
  obtain ⟨m, hm, hsome⟩ := hh
  obtain ⟨h0, hh0⟩ := Option.ne_none_iff_exists'.mp hsome
  have h1 : h0 ∈ messageHours ms := by
    unfold messageHours
    exact (List.mem_insertionSort _).mpr
      (List.mem_dedup.mpr (List.mem_filterMap.mpr ⟨m, hm, hh0⟩))
  have htne : hourlyTotals ms ≠ [] :=
    List.ne_nil_of_mem (List.mem_map_of_mem _ h1)
  obtain ⟨t, ht, x, hx, hle⟩ := quantileLinear_le_max _ htne
  obtain ⟨hstar, hstar_mem, hxeq⟩ := List.mem_map.mp hx
  unfold peak_hours
  rw [ht]
  show (messageHours ms).filter (fun h => decide (t ≤ (hourTotal ms h : ℚ))) ≠ []
  intro hempty
  have hmem : hstar ∈ (messageHours ms).filter
      (fun h => decide (t ≤ (hourTotal ms h : ℚ))) :=
    List.mem_filter.mpr ⟨hstar_mem, by
      simp only [decide_eq_true_eq]
      rw [hxeq]
      exact hle⟩
  rw [hempty] at hmem
  exact absurd hmem (List.not_mem_nil _)

/-- C10, witness: the invariant applied to the concrete three-message
table. -/
theorem C10_peak_nonempty_witness : peak_hours peakExampleMessages ≠ [] :=
  C10_peak_nonempty peakExampleMessages (by decide)
    ⟨{ baseMessage with messageID := 1, hour := some 0 }, by decide, by decide⟩
